import Mathlib

/-!
Verification of the gmail-calendar-sync email-classification and
booking-reconciliation pipeline.

The Python source is shallowly embedded as executable Lean definitions:
  * `datetime` values are modelled as integers (a fixed timezone-normalized
    epoch count); `isoformat` is the (injective) decimal rendering of that
    integer and `fromisoformat` its inverse, so exact ISO-string comparison
    and chronological comparison behave exactly as in the source.
  * Google-calendar event dicts are modelled by `StoreEvent` / `GEventData`,
    with the extended private properties as an association list.
  * Network calls are parameters: each reconciliation function takes the
    result of its calendar-store query as an argument, with `Except` used
    where the source wraps the query in try/except.
  * Calls issued to the calendar store are reified as a `CalAction` trace.
-/

namespace GCS

/-! ### Generic string helpers -/

/-- Substring test: Python's `pat in hay` for strings (contiguous occurrence),
over char lists. -/
def subAt (pat : List Char) : List Char → Bool
  | [] => pat.isEmpty
  | c :: rest => pat.isPrefixOf (c :: rest) || subAt pat rest

/-- Python's `pat in hay` on strings. -/
def strContains (hay pat : String) : Bool :=
  subAt pat.data hay.data

/-- Python truthiness of an optional string: `None` and `""` are falsy. -/
def truthy : Option String → Bool
  | some s => s ≠ ""
  | none => false

/-- Python `f"{x}"` of an optional string: `None` renders as `"None"`. -/
def pyStr : Option String → String
  | some s => s
  | none => "None"

/-- Python `a or b` for an optional string `a` with string default `b`. -/
def pyOrStr (a : Option String) (dft : String) : String :=
  match a with
  | some s => if s = "" then dft else s
  | none => dft

/-- Python `str.replace(pat, subst)`: replace every non-overlapping occurrence
left to right.  Structural recursion on a fuel that each step consumes at
least one character of. -/
def replaceAllFuel (pat subst : List Char) : Nat → List Char → List Char
  | 0, l => l
  | _ + 1, [] => []
  | fuel + 1, c :: rest =>
    if pat.isPrefixOf (c :: rest) && !pat.isEmpty then
      subst ++ replaceAllFuel pat subst fuel ((c :: rest).drop pat.length)
    else c :: replaceAllFuel pat subst fuel rest

/-- Python `s.replace(pat, subst)` on strings (non-empty `pat`). -/
def pyReplace (s pat subst : String) : String :=
  String.mk (replaceAllFuel pat.data subst.data s.data.length s.data)

/-- Python `str.strip()`: remove leading and trailing whitespace. -/
def pyStrip (s : String) : String :=
  String.mk (((s.data.dropWhile Char.isWhitespace).reverse.dropWhile Char.isWhitespace).reverse)

/-- First-match lookup in an association list; models `dict.get(key)` for the
dicts built by the source (whose keys are distinct literals). -/
def lookupProp : List (String × String) → String → Option String
  | [], _ => none
  | (k, v) :: rest, key => if k = key then some v else lookupProp rest key

/-! ### Regex fragment evaluation

Every pattern in `EmailFilter` is one of: a literal (substring search), a
two- or three-part `A.*B(.*C)` chain, or an alternation chain
`(X|Y|Z).*?(X|Y|Z)`.  All are compiled with `re.IGNORECASE` and searched with
`re.search`; `.` does not match a newline, so the gap between chained parts
must be newline-free.  The evaluators below implement exactly this match
semantics over char lists. -/

/-- Does `b` occur in the list with only non-newline characters before it?
(the tail of a `.*B` search starting at the current position). -/
def gapFind (b : List Char) : List Char → Bool
  | [] => b.isEmpty
  | c :: rest => b.isPrefixOf (c :: rest) || (c ≠ '\n' && gapFind b rest)

/-- Tail of a `.*B.*C` search: find `b` across a newline-free gap, then `c`
across a newline-free gap after it. -/
def gapChain (b c : List Char) : List Char → Bool
  | [] => b.isEmpty && c.isEmpty
  | x :: rest =>
    (b.isPrefixOf (x :: rest) && gapFind c ((x :: rest).drop b.length)) ||
    (x ≠ '\n' && gapChain b c rest)

/-- `re.search` of `A.*B`: an occurrence of `a` followed by `b` with a
newline-free gap. -/
def seqMatch (a b : List Char) : List Char → Bool
  | [] => a.isEmpty && b.isEmpty
  | c :: rest =>
    (a.isPrefixOf (c :: rest) && gapFind b ((c :: rest).drop a.length)) ||
    seqMatch a b rest

/-- `re.search` of `A.*B.*C`. -/
def seq3Match (a b c : List Char) : List Char → Bool
  | [] => a.isEmpty && b.isEmpty && c.isEmpty
  | x :: rest =>
    (a.isPrefixOf (x :: rest) && gapChain b c ((x :: rest).drop a.length)) ||
    seq3Match a b c rest

/-- Case-folding used for `re.IGNORECASE` (character-wise lowering; the
Japanese characters in the pattern lists are fixed points). -/
def low (s : String) : List Char :=
  s.data.map Char.toLower

/-- The shapes of regex pattern appearing in `EmailFilter`. -/
inductive JPat where
  | lit (p : String)
  | seq (a b : String)
  | seq3 (a b c : String)
  | altSeq (choices : List String)
deriving DecidableEq

/-- `pattern.search(s)` returning whether a match exists. -/
def JPat.matches : JPat → String → Bool
  | .lit p, s => subAt (low p) (low s)
  | .seq a b, s => seqMatch (low a) (low b) (low s)
  | .seq3 a b c, s => seq3Match (low a) (low b) (low c) (low s)
  | .altSeq cs, s => cs.any fun a => cs.any fun b => seqMatch (low a) (low b) (low s)

/-! ### `EmailFilter` pattern data (src/utils/email_filter.py) -/

/-- `EmailFilter.promotional_subject_patterns`. -/
def promotional_subject_patterns : List JPat :=
  [ .lit "キャンペーン"
  , .lit "プレゼント"
  , .lit "抽選"
  , .lit "割引"
  , .lit "セール"
  , .lit "特典"
  , .lit "お得"
  , .lit "限定"
  , .lit "応募"
  , .seq "マイル" "キャンペーン"
  , .seq "ポイント" "キャンペーン"
  , .lit "メルマガ"
  , .lit "ニュースレター"
  , .lit "お知らせ"
  , .lit "新着"
  , .lit "情報配信"
  , .seq "ANA" "キャンペーン"
  , .seq "ANA" "プレゼント"
  , .seq "ANA" "マイル"
  , .lit "ANAからのお知らせ"
  , .seq "JAL" "キャンペーン"
  , .seq "JAL" "プレゼント"
  , .seq "JAL" "マイル"
  , .lit "JALからのお知らせ"
  , .seq "タイムズカー" "キャンペーン"
  , .seq "カレコ" "キャンペーン"
  , .seq "三井のカーシェアーズ" "キャンペーン"
  , .seq "カーシェア" "お得"
  , .lit "今すぐ"
  , .lit "急いで"
  , .lit "見逃し"
  , .lit "最後のチャンス"
  , .lit "期間限定"
  , .lit "無料"
  , .lit "プレミアム" ]

/-- `EmailFilter.promotional_body_patterns`. -/
def promotional_body_patterns : List JPat :=
  [ .seq "クリックして" "キャンペーン"
  , .seq "詳しくはこちら" "キャンペーン"
  , .seq "応募" "こちら"
  , .lit "配信停止"
  , .seq "メール配信" "停止"
  , .lit "購読解除"
  , .seq "キャンペーン" "情報"
  , .lit "詳しくはこちら"
  , .seq "今すぐ" "クリック"
  , .altSeq ["キャンペーン", "プレゼント", "抽選"] ]

/-- `EmailFilter.booking_confirmation_patterns`. -/
def booking_confirmation_patterns : List JPat :=
  [ .seq3 "予約" "受付" "ました"
  , .seq "ご予約" "確認"
  , .lit "搭乗券"
  , .seq "フライト" "確認"
  , .lit "航空券"
  , .lit "確認番号"
  , .lit "予約番号"
  , .lit "チェックイン"
  , .lit "eチケット"
  , .seq "座席" "指定"
  , .seq "搭乗" "手続"
  , .seq "予約" "完了"
  , .seq "ご利用" "ありがとう"
  , .seq "ANA" "予約"
  , .seq "ANA" "確認"
  , .seq "ANA" "チケット"
  , .seq "ANA" "搭乗"
  , .seq "JAL" "予約"
  , .seq "JAL" "確認"
  , .seq "JAL" "チケット"
  , .seq "JAL" "搭乗"
  , .seq "利用" "開始"
  , .seq "利用" "終了"
  , .seq "予約" "開始"
  , .seq "返却" "完了"
  , .seq "キャンセル" "受付"
  , .seq "変更" "受付" ]

/-- `sum(1 for pattern in ps if pattern.search(s))`. -/
def countMatches (ps : List JPat) (s : String) : Nat :=
  ps.countP fun p => p.matches s

/-- `EmailFilter._is_booking_confirmation`: any confirmation pattern in the
subject, or at least two in the body. -/
def is_booking_confirmation (subject body : String) : Bool :=
  (booking_confirmation_patterns.any fun p => p.matches subject) ||
  decide (2 ≤ countMatches booking_confirmation_patterns body)

/-- `EmailFilter.is_promotional_email` (confirmation precedence, then the
threshold cascade). -/
def is_promotional_email (subject body : String) : Bool :=
  if is_booking_confirmation subject body then false
  else
    let sm := countMatches promotional_subject_patterns subject
    let bm := countMatches promotional_body_patterns body
    if 2 ≤ sm then true
    else if 1 ≤ sm ∧ 2 ≤ bm then true
    else if 3 ≤ bm then true
    else false

/-! ### Time codec

`datetime` values are embedded as integers; `isoformat` is the decimal
rendering and `fromisoformat` its inverse (returning `none` where the Python
call would raise `ValueError`).  The source's `.replace("Z", "+00:00")`
normalization is absorbed by the codec. -/

/-- `datetime.isoformat()` under the integer embedding of datetimes. -/
def isoformat (t : Int) : String :=
  toString t

/-- Decimal digit-string parser (executable in the kernel). -/
def parseNatAux : List Char → Nat → Option Nat
  | [], acc => some acc
  | c :: rest, acc =>
    if c.isDigit then parseNatAux rest (acc * 10 + (c.toNat - 48)) else none

/-- `datetime.fromisoformat` under the integer embedding; `none` models the
`ValueError` raised on an unparsable string. -/
def fromisoformat (s : String) : Option Int :=
  match s.data with
  | [] => none
  | '-' :: rest =>
    if rest.isEmpty then none
    else (parseNatAux rest 0).map fun n => -(n : Int)
  | l => (parseNatAux l 0).map fun n => (n : Int)

/-! ### Data model (src/models) -/

/-- `Airport` (src/models/flight.py). -/
structure Airport where
  code : String
  name : Option String
  city : Option String
deriving DecidableEq

/-- `FlightSegment` (src/models/flight.py). -/
structure FlightSegment where
  airline : String
  flight_number : String
  departure_airport : Airport
  arrival_airport : Airport
  departure_time : Int
  arrival_time : Int
  aircraft_type : Option String
  seat_number : Option String
deriving DecidableEq

/-- `FlightBooking` (src/models/flight.py).  The pydantic `min_length=1`
constraint on `outbound_segments` is carried as a hypothesis where needed. -/
structure FlightBooking where
  confirmation_code : Option String
  passenger_name : String
  booking_reference : Option String
  outbound_segments : List FlightSegment
  return_segments : List FlightSegment
  booking_date : Option Int
  total_price : Option String
  checkin_url : Option String
  checkin_opens : Option Int
deriving DecidableEq

/-- `CarShareProvider` (src/models/carshare.py). -/
inductive CarShareProvider where
  | mitsui_carshares
  | times_car
deriving DecidableEq

/-- `BookingStatus` (src/models/carshare.py). -/
inductive BookingStatus where
  | reserved
  | changed
  | cancelled
  | completed
deriving DecidableEq

/-- The string `.value` of a `BookingStatus` enum member. -/
def BookingStatus.value : BookingStatus → String
  | .reserved => "reserved"
  | .changed => "changed"
  | .cancelled => "cancelled"
  | .completed => "completed"

/-- `CarInfo` (src/models/carshare.py). -/
structure CarInfo where
  car_type : Option String
  car_number : Option String
  car_name : Option String
deriving DecidableEq

/-- `StationInfo` (src/models/carshare.py). -/
structure StationInfo where
  station_name : String
  station_address : Option String
  station_code : Option String
deriving DecidableEq

/-- `CarShareBooking` (src/models/carshare.py). -/
structure CarShareBooking where
  booking_reference : Option String
  confirmation_code : Option String
  provider : CarShareProvider
  status : BookingStatus
  user_name : String
  start_time : Int
  end_time : Int
  station : StationInfo
  car : Option CarInfo
  booking_date : Option Int
  total_price : Option String
  email_received_at : Option Int
deriving DecidableEq

/-- `CalendarEvent` (src/models/calendar.py). -/
structure CalendarEvent where
  summary : String
  description : Option String
  start_time : Int
  end_time : Int
  location : Option String
  source_email_id : String
  confirmation_code : Option String
  booking_reference : Option String
  seat_number : Option String
deriving DecidableEq

/-- The parts of the Google-Calendar API dict built by
`CalendarEvent.to_google_calendar_format` that the pipeline reads back
(the `timeZone` sub-fields are not modelled: the integer time embedding is
timezone-normalized). -/
structure GEventData where
  summary : String
  startDateTime : String
  endDateTime : String
  description : Option String
  location : Option String
  privateProps : List (String × String)
deriving DecidableEq

/-- `CalendarEvent.to_google_calendar_format` (src/models/calendar.py):
the `description`/`location` keys and the optional private tags are present
exactly when the corresponding field is Python-truthy. -/
def to_google_calendar_format (e : CalendarEvent) : GEventData :=
  { summary := e.summary
    startDateTime := isoformat e.start_time
    endDateTime := isoformat e.end_time
    description := if truthy e.description then e.description else none
    location := if truthy e.location then e.location else none
    privateProps :=
      [("source", "gmail-calendar-sync"), ("source_email_id", e.source_email_id)]
      ++ (if truthy e.confirmation_code then [("confirmation_code", e.confirmation_code.getD "")] else [])
      ++ (if truthy e.booking_reference then [("booking_reference", e.booking_reference.getD "")] else [])
      ++ (if truthy e.seat_number then [("seat_number", e.seat_number.getD "")] else []) }

/-- An event as returned by the Google Calendar API list/get calls: the dict
fields the pipeline reads, with `get(..., "")` defaults folded into plain
string fields. -/
structure StoreEvent where
  id : String
  summary : String
  location : String
  description : String
  startDateTime : String
  endDateTime : String
  privateProps : List (String × String)
deriving DecidableEq

/-- Re-reading an inserted event from the store: the private tag bag (and the
other fields) round-trip verbatim; the store assigns the event id. -/
def storeRoundTrip (g : GEventData) (eventId : String) : StoreEvent :=
  { id := eventId
    summary := g.summary
    location := g.location.getD ""
    description := g.description.getD ""
    startDateTime := g.startDateTime
    endDateTime := g.endDateTime
    privateProps := g.privateProps }

/-- The store-side filter of `CalendarClient.find_events_by_confirmation_code`:
`privateExtendedProperty="confirmation_code={code}"` selects events whose
private tag bag maps that key to the code. -/
def matches_confirmation_query (ev : StoreEvent) (code : String) : Bool :=
  lookupProp ev.privateProps "confirmation_code" == some code

/-! ### Event construction (src/models/calendar.py) -/

/-- The display name of an airport in a flight-event summary:
`city or name or code`, with `" Airport"` and `"空港"` removed. -/
def airportDisplayName (ap : Airport) : String :=
  pyReplace (pyReplace (pyOrStr ap.city (pyOrStr ap.name ap.code)) " Airport" "") "空港" ""

/-- The body shared by the outbound and return loops of
`create_flight_events`: one calendar event per flight segment. -/
def flightSegmentEvent (b : FlightBooking) (emailId : String) (seg : FlightSegment) :
    CalendarEvent :=
  let departureName := airportDisplayName seg.departure_airport
  let arrivalName := airportDisplayName seg.arrival_airport
  let summary := "✈️ " ++ departureName ++ " → " ++ arrivalName ++ " (" ++
    seg.airline ++ " " ++ seg.flight_number ++ ")"
  let parts :=
    [ "Flight: " ++ seg.airline ++ " " ++ seg.flight_number
    , "Route: " ++ seg.departure_airport.code ++ " → " ++ seg.arrival_airport.code
    , "Passenger: " ++ b.passenger_name
    , "Confirmation: " ++ pyStr b.confirmation_code ]
    ++ (if truthy b.booking_reference then
          ["Booking Reference: " ++ b.booking_reference.getD ""] else [])
    ++ (if truthy seg.seat_number then ["Seat: " ++ seg.seat_number.getD ""] else [])
    ++ (if truthy b.checkin_url then ["Check-in: " ++ b.checkin_url.getD ""] else [])
  let location := pyOrStr seg.departure_airport.name seg.departure_airport.code
    ++ (if truthy seg.departure_airport.city then
          ", " ++ seg.departure_airport.city.getD "" else "")
  { summary := summary
    description := some (String.intercalate "\n" parts)
    start_time := seg.departure_time
    end_time := seg.arrival_time
    location := some location
    source_email_id := emailId
    confirmation_code := b.confirmation_code
    booking_reference := b.booking_reference
    seat_number := seg.seat_number }

/-- `create_flight_events`: one event per outbound segment then one per
return segment, in order. -/
def create_flight_events (b : FlightBooking) (emailId : String) : List CalendarEvent :=
  b.outbound_segments.map (flightSegmentEvent b emailId)
  ++ b.return_segments.map (flightSegmentEvent b emailId)

/-- Round-half-to-even division, the rounding CPython's `format(x, ".1f")`
applies to the exact value: `roundHalfEven n d` is `n / d` rounded to the
nearest integer, ties to even (`d` positive). -/
def roundHalfEven (n : Int) (d : Int) : Int :=
  let q := n / d
  let r := n % d
  if 2 * r < d then q
  else if 2 * r > d then q + 1
  else if q % 2 = 0 then q else q + 1

/-- `f"{x:.1f}"` for `x` = `tenths / 10` already scaled to tenths. -/
def tenthsToStr (t : Int) : String :=
  (if t < 0 then "-" else "") ++ toString (t.natAbs / 10) ++ "." ++ toString (t.natAbs % 10)

/-- `f"{booking.duration_hours:.1f}"` with the duration in integral time
units (the integer datetime embedding): `(end - start) / 3600` hours rendered
with one decimal. -/
def durationHoursStr (b : CarShareBooking) : String :=
  tenthsToStr (roundHalfEven (10 * (b.end_time - b.start_time)) 3600)

/-- `create_carshare_events` (src/models/calendar.py): exactly one event. -/
def create_carshare_events (b : CarShareBooking) (emailId : String) :
    List CalendarEvent :=
  let provider_name :=
    match b.provider with
    | .mitsui_carshares => "三井のカーシェアーズ"
    | .times_car => "Times Car"
  let status_emoji :=
    match b.status with
    | .reserved => "🚗"
    | .changed => "🔄"
    | .cancelled => "❌"
    | .completed => "✅"
  let summary := status_emoji ++ " " ++ b.station.station_name ++
    (match b.car with
     | some car => if truthy car.car_type then " (" ++ car.car_type.getD "" ++ ")" else ""
     | none => "")
  let parts :=
    [ "サービス: " ++ provider_name
    , "ステーション: " ++ b.station.station_name
    , "利用者: " ++ b.user_name
    , "利用時間: " ++ durationHoursStr b ++ "時間"
    , "ステータス: " ++ b.status.value ]
    ++ (if truthy b.station.station_address then
          ["住所: " ++ b.station.station_address.getD ""] else [])
    ++ (match b.car with
        | some car =>
          (if truthy car.car_type then ["車種: " ++ car.car_type.getD ""] else [])
          ++ (if truthy car.car_number then ["車両番号: " ++ car.car_number.getD ""] else [])
        | none => [])
    ++ (if truthy b.booking_reference then ["予約番号: " ++ b.booking_reference.getD ""] else [])
    ++ (if truthy b.confirmation_code then ["確認番号: " ++ b.confirmation_code.getD ""] else [])
    ++ (if truthy b.total_price then ["料金: " ++ b.total_price.getD ""] else [])
  let location := b.station.station_name ++
    (if truthy b.station.station_address then ", " ++ b.station.station_address.getD "" else "")
  [ { summary := summary
      description := some (String.intercalate "\n" parts)
      start_time := b.start_time
      end_time := b.end_time
      location := some location
      source_email_id := emailId
      confirmation_code := b.confirmation_code
      booking_reference := b.booking_reference
      seat_number := none } ]

/-! ### Calendar client decision logic (src/services/calendar_client.py) -/

/-- `CalendarClient.needs_update`: seat change to a concrete seat, exact
ISO-string time difference, or a strictly longer new description. -/
def needs_update (existing : StoreEvent) (n : CalendarEvent) : Bool :=
  let existing_seat := (lookupProp existing.privateProps "seat_number").getD ""
  let new_seat := (lookupProp (to_google_calendar_format n).privateProps "seat_number").getD ""
  if existing_seat ≠ new_seat ∧ new_seat ≠ "" ∧ new_seat ≠ "未指定" then true
  else if existing.startDateTime ≠ isoformat n.start_time then true
  else if existing.endDateTime ≠ isoformat n.end_time then true
  else if existing.description.length < (n.description.getD "").length then true
  else false

/-- A call issued to the calendar store. -/
inductive CalAction where
  | update (eventId : String) (ev : CalendarEvent)
  | create (ev : CalendarEvent)
  | delete (eventId : String)
deriving DecidableEq

/-! ### Flight reconciliation (src/processors/flight_processor.py) -/

/-- Which identity query `FlightEmailProcessor.create_calendar_events` runs. -/
inductive FlightQueryKey where
  | byCode (code : String)
  | byRef (ref : String)
  | noQuery
deriving DecidableEq

/-- The `if confirmation_code: ... elif booking_reference: ... else: []`
key selection of `FlightEmailProcessor.create_calendar_events`. -/
def flightIdentityQuery (b : FlightBooking) : FlightQueryKey :=
  if truthy b.confirmation_code then .byCode (b.confirmation_code.getD "")
  else if truthy b.booking_reference then .byRef (b.booking_reference.getD "")
  else .noQuery

/-- The pairwise update loop `for i, new_event in enumerate(new_calendar_events)`
with guard `i < len(existing_events)`: the update calls issued, in order. -/
def flightUpdateActions (existing : List StoreEvent) :
    List CalendarEvent → Nat → List CalAction
  | [], _ => []
  | n :: rest, i =>
    (match existing[i]? with
     | some e => if needs_update e n then [CalAction.update e.id n] else []
     | none => []) ++ flightUpdateActions existing rest (i + 1)

/-- The calls `FlightEmailProcessor.create_calendar_events` issues to the
store once the identity query has returned `existing`: update in place where
needed, create the surplus desired events, create everything when nothing
exists. -/
def flight_reconcile_actions (existing : List StoreEvent)
    (desired : List CalendarEvent) : List CalAction :=
  if existing.isEmpty then desired.map CalAction.create
  else
    flightUpdateActions existing desired 0
    ++ (if existing.length < desired.length then
          (desired.drop existing.length).map CalAction.create
        else [])

/-- `FlightEmailProcessor.create_calendar_events` as a whole: the returned
event list and the store calls.  `exn` indicates an exception anywhere inside
the method's `try` (store failures, validation errors), whose handler returns
`[]`. -/
def flight_create_calendar_events (b : FlightBooking) (emailId : String)
    (existing : List StoreEvent) (exn : Bool) :
    List CalendarEvent × List CalAction :=
  if exn then ([], [])
  else
    let desired := create_flight_events b emailId
    (desired, flight_reconcile_actions existing desired)

/-- `EmailType` (src/models/email_types.py). -/
inductive EmailType where
  | flight
  | car_share
  | restaurant
deriving DecidableEq

/-- `ProcessingResult` (src/models/email_types.py); the opaque extracted-data
dict is typed by the booking record it serializes. -/
structure ProcessingResult (α : Type) where
  email_id : String
  email_type : EmailType
  success : Bool
  extracted_data : Option α
  error_message : Option String
deriving DecidableEq

/-- `FlightEmailProcessor.process`: the short-circuiting step cascade, with
the collaborator outcomes (filter verdicts, extraction result, store query,
reconciliation exception) as parameters. -/
def flight_process (emailId : String) (likely promo : Bool)
    (extracted : Option FlightBooking) (existing : List StoreEvent) (exn : Bool) :
    ProcessingResult FlightBooking :=
  if likely = false then
    { email_id := emailId, email_type := .flight, success := false,
      extracted_data := none,
      error_message := some "No flight information found in email" }
  else if promo then
    { email_id := emailId, email_type := .flight, success := false,
      extracted_data := none,
      error_message := some "Skipped promotional email" }
  else
    match extracted with
    | none =>
      { email_id := emailId, email_type := .flight, success := false,
        extracted_data := none,
        error_message := some "No flight information found in email" }
    | some b =>
      let events := (flight_create_calendar_events b emailId existing exn).1
      if events.isEmpty then
        { email_id := emailId, email_type := .flight, success := false,
          extracted_data := some b,
          error_message := some "Failed to create calendar events" }
      else
        { email_id := emailId, email_type := .flight, success := true,
          extracted_data := some b, error_message := none }

/-! ### Car-share reconciliation (src/processors/carshare_processor.py) -/

/-- The filter loop of `CarShareEmailProcessor.find_overlapping_events` over
the store query result: skip events not tagged as ours, parse both times
(`none` models the `ValueError` aborting the whole call), keep events that
strictly overlap the booking and match on station or provider name. -/
def overlapLoop (b : CarShareBooking) : List StoreEvent → Option (List StoreEvent)
  | [] => some []
  | e :: rest =>
    if (lookupProp e.privateProps "source" == some "gmail-calendar-sync") = false then
      overlapLoop b rest
    else
      match fromisoformat e.startDateTime, fromisoformat e.endDateTime with
      | some eventStart, some eventEnd =>
        if b.start_time < eventEnd ∧ eventStart < b.end_time then
          if strContains e.location b.station.station_name
              || strContains e.summary "Times Car"
              || strContains e.summary "三井のカーシェアーズ" then
            (overlapLoop b rest).map (e :: ·)
          else overlapLoop b rest
        else overlapLoop b rest
      | _, _ => none

/-- `CarShareEmailProcessor.find_overlapping_events`: any exception — in the
±2h window query itself (the `Except.error` case) or while parsing an event's
times — yields `[]`. -/
def find_overlapping_events (b : CarShareBooking)
    (query : Except Unit (List StoreEvent)) : List StoreEvent :=
  match query with
  | .error _ => []
  | .ok evs => (overlapLoop b evs).getD []

/-- `CarShareEmailProcessor.create_calendar_events`: the returned event list
and the store calls.  Cancelled bookings delete every overlapping event and
return no events; otherwise the single desired event replaces any overlapping
events (`handle_overlapping_events`) or is simply created. -/
def carshare_create_calendar_events (b : CarShareBooking) (emailId : String)
    (query : Except Unit (List StoreEvent)) :
    List CalendarEvent × List CalAction :=
  let overlapping := find_overlapping_events b query
  if b.status = BookingStatus.cancelled then
    ([], overlapping.map fun e => CalAction.delete e.id)
  else
    let newEvents := create_carshare_events b emailId
    if overlapping.isEmpty = false then
      (newEvents, (overlapping.map fun e => CalAction.delete e.id)
        ++ newEvents.map CalAction.create)
    else
      (newEvents, newEvents.map CalAction.create)

/-- `CarShareEmailProcessor.process`: the step cascade, with the cancelled
status recognized as a success after `create_calendar_events` returns. -/
def carshare_process (emailId : String) (likely promo : Bool)
    (extracted : Option CarShareBooking) (query : Except Unit (List StoreEvent)) :
    ProcessingResult CarShareBooking × List CalAction :=
  if likely = false then
    ({ email_id := emailId, email_type := .car_share, success := false,
       extracted_data := none,
       error_message := some "No car sharing information found in email" }, [])
  else if promo then
    ({ email_id := emailId, email_type := .car_share, success := false,
       extracted_data := none,
       error_message := some "Skipped promotional email" }, [])
  else
    match extracted with
    | none =>
      ({ email_id := emailId, email_type := .car_share, success := false,
         extracted_data := none,
         error_message := some "No car sharing information found in email" }, [])
    | some b =>
      let (events, acts) := carshare_create_calendar_events b emailId query
      if b.status = BookingStatus.cancelled then
        ({ email_id := emailId, email_type := .car_share, success := true,
           extracted_data := some b, error_message := none }, acts)
      else if events.isEmpty then
        ({ email_id := emailId, email_type := .car_share, success := false,
           extracted_data := some b,
           error_message := some "Failed to create calendar events" }, acts)
      else
        ({ email_id := emailId, email_type := .car_share, success := true,
           extracted_data := some b, error_message := none }, acts)

/-! ### Pipeline driver exit code (src/main.py) -/

/-- `main()`'s summary bucket: results that succeeded. -/
def successfulCount {α : Type} (rs : List (ProcessingResult α)) : Nat :=
  rs.countP fun r => r.success

/-- `main()`'s summary bucket: failures with the given error message. -/
def failureCountWithMessage {α : Type} (msg : String)
    (rs : List (ProcessingResult α)) : Nat :=
  rs.countP fun r => !r.success && r.error_message == some msg

/-- `main()`'s `failed` count: everything outside the success and the three
known skip buckets. -/
def failedCount {α : Type} (rs : List (ProcessingResult α)) : Nat :=
  rs.length - successfulCount rs
    - failureCountWithMessage "Skipped promotional email" rs
    - failureCountWithMessage "No flight information found in email" rs
    - failureCountWithMessage "No car sharing information found in email" rs

/-- The process exit code of `main()`: 1 when an exception escapes the
processing phase, otherwise `sys.exit(1)` when `failed > 0` and a fall-through
exit 0 when not. -/
def mainExitCode {α : Type} (outcome : Except Unit (List (ProcessingResult α))) : Nat :=
  match outcome with
  | .error _ => 1
  | .ok results => if 0 < failedCount results then 1 else 0

/-! ### Sender domain (src/models/email_types.py) -/

/-- `EmailMessage.domain`: the suffix after the last `"@"` (Python
`split("@")[-1]`), lower-cased, cut at the first `">"` when one is present
(`split(">")[0]`), and stripped; `""` when the sender has no `"@"`. -/
def sender_domain (sender : String) : String :=
  if sender.data.contains '@' then
    let domain_part :=
      String.mk (((sender.data.reverse.takeWhile fun c => c ≠ '@').reverse).map Char.toLower)
    let cleaned :=
      if domain_part.data.contains '>' then
        String.mk (domain_part.data.takeWhile fun c => c ≠ '>')
      else domain_part
    pyStrip cleaned
  else ""

/-- The claim's description of the `"@"` case, as one unconditional pipeline:
lower-case the text after the last `"@"`, drop everything from the first
`">"` onward, strip surrounding whitespace. -/
def sender_domain_spec (sender : String) : String :=
  pyStrip (String.mk ((((sender.data.reverse.takeWhile fun c => c ≠ '@').reverse).map
    Char.toLower).takeWhile fun c => c ≠ '>'))

/-! ### Spec-side statement of the C2 claim -/

/-- The "needs update" disjunction exactly as the claim states it, including
the "seat number changed **from a placeholder/blank** to a concrete value"
reading of the first disjunct. -/
def needs_update_claim_rhs (e : StoreEvent) (n : CalendarEvent) : Bool :=
  let existing_seat := (lookupProp e.privateProps "seat_number").getD ""
  let new_seat := (lookupProp (to_google_calendar_format n).privateProps "seat_number").getD ""
  ((existing_seat == "" || existing_seat == "未指定")
    && new_seat != "" && new_seat != "未指定")
  || e.startDateTime != isoformat n.start_time
  || e.endDateTime != isoformat n.end_time
  || decide (e.description.length < (n.description.getD "").length)

/-- The condition under which the `find_overlapping_events` loop keeps a
store event: own-sourced, strictly overlapping the booking, and matching on
station name in the location or a provider display name in the title. -/
def overlapKeep (b : CarShareBooking) (e : StoreEvent) : Bool :=
  (lookupProp e.privateProps "source" == some "gmail-calendar-sync")
  && decide (b.start_time < (fromisoformat e.endDateTime).getD 0)
  && decide ((fromisoformat e.startDateTime).getD 0 < b.end_time)
  && (strContains e.location b.station.station_name
      || strContains e.summary "Times Car"
      || strContains e.summary "三井のカーシェアーズ")

/-! ### Concrete fixtures used by witnesses and counterexamples -/

/-- An outbound flight segment with a concrete seat (spec scenario data). -/
def segW : FlightSegment :=
  { airline := "ANA"
  , flight_number := "NH062"
  , departure_airport := { code := "HND", name := some "Haneda Airport", city := some "Tokyo" }
  , arrival_airport := { code := "ITM", name := none, city := none }
  , departure_time := 1000
  , arrival_time := 1100
  , aircraft_type := none
  , seat_number := some "14A" }

/-- A one-segment flight booking with a confirmation code. -/
def bookW : FlightBooking :=
  { confirmation_code := some "887525617"
  , passenger_name := "TARO YAMADA"
  , booking_reference := none
  , outbound_segments := [segW]
  , return_segments := []
  , booking_date := none
  , total_price := none
  , checkin_url := none
  , checkin_opens := none }

/-- A stored copy of the same flight event whose seat tag is the placeholder
`未指定` and whose times agree with `segW`. -/
def storedW : StoreEvent :=
  { id := "ev1"
  , summary := ""
  , location := ""
  , description := ""
  , startDateTime := "1000"
  , endDateTime := "1100"
  , privateProps :=
      [ ("source", "gmail-calendar-sync")
      , ("source_email_id", "mail-old")
      , ("confirmation_code", "887525617")
      , ("seat_number", "未指定") ] }

/-- An existing event whose seat tag is already the concrete seat `1A`. -/
def storedSeat1A : StoreEvent :=
  { id := "ev9"
  , summary := ""
  , location := ""
  , description := ""
  , startDateTime := "5"
  , endDateTime := "6"
  , privateProps := [("seat_number", "1A")] }

/-- A new event carrying the different concrete seat `2B` and otherwise
identical comparison fields. -/
def newSeat2B : CalendarEvent :=
  { summary := "s"
  , description := none
  , start_time := 5
  , end_time := 6
  , location := none
  , source_email_id := "m"
  , confirmation_code := none
  , booking_reference := none
  , seat_number := some "2B" }

/-- A cancelled car-share booking. -/
def csCancelled : CarShareBooking :=
  { booking_reference := some "R123"
  , confirmation_code := none
  , provider := .mitsui_carshares
  , status := .cancelled
  , user_name := "TARO"
  , start_time := 5000
  , end_time := 9000
  , station := { station_name := "品川駅前", station_address := none, station_code := none }
  , car := none
  , booking_date := none
  , total_price := none
  , email_received_at := none }

/-- The same booking with status Changed. -/
def csChanged : CarShareBooking :=
  { csCancelled with status := .changed }

/-- An own-sourced stored event overlapping `csCancelled` by station name. -/
def ovStation : StoreEvent :=
  { id := "o1"
  , summary := "🚗 品川駅前"
  , location := "品川駅前"
  , description := ""
  , startDateTime := "4000"
  , endDateTime := "8000"
  , privateProps := [("source", "gmail-calendar-sync")] }

/-- An own-sourced stored event overlapping `csCancelled` by provider name in
the title. -/
def ovProvider : StoreEvent :=
  { id := "o2"
  , summary := "三井のカーシェアーズ 予約"
  , location := "elsewhere"
  , description := ""
  , startDateTime := "6000"
  , endDateTime := "10000"
  , privateProps := [("source", "gmail-calendar-sync")] }

/-- A flight calendar event built with confirmation code `ABC123`. -/
def eventABC : CalendarEvent :=
  { summary := "trip"
  , description := none
  , start_time := 10
  , end_time := 20
  , location := none
  , source_email_id := "mail-abc"
  , confirmation_code := some "ABC123"
  , booking_reference := none
  , seat_number := none }

/-- A processing result failing outside the three skip buckets. -/
def failedResult : ProcessingResult Unit :=
  { email_id := "msg1"
  , email_type := .flight
  , success := false
  , extracted_data := none
  , error_message := some "Failed to create calendar events" }

/-! ### Helper lemmas -/

/-- `takeWhile` keeps the whole list when no character fails the predicate. -/
lemma takeWhile_of_not_contains (l : List Char) (x : Char)
    (h : l.contains x = false) : (l.takeWhile fun c => c ≠ x) = l := by
  have hx : x ∉ l := by simpa using h
  rw [List.takeWhile_eq_self_iff]
  intro c hc
  simp only [decide_eq_true_eq]
  intro hcx
  exact hx (hcx ▸ hc)

/-- Unfolding `lookupProp` across the optional tag segments of
`to_google_calendar_format`. -/
lemma lookup_tag_source (e : CalendarEvent) :
    lookupProp (to_google_calendar_format e).privateProps "source" =
      some "gmail-calendar-sync" := by
  simp [to_google_calendar_format, lookupProp]

lemma lookup_tag_source_email (e : CalendarEvent) :
    lookupProp (to_google_calendar_format e).privateProps "source_email_id" =
      some e.source_email_id := by
  simp [to_google_calendar_format, lookupProp]

lemma lookup_tag_confirmation (e : CalendarEvent) :
    lookupProp (to_google_calendar_format e).privateProps "confirmation_code" =
      (if truthy e.confirmation_code then some (e.confirmation_code.getD "") else none) := by
  by_cases h1 : truthy e.confirmation_code <;>
    by_cases h2 : truthy e.booking_reference <;>
    by_cases h3 : truthy e.seat_number <;>
    simp [to_google_calendar_format, lookupProp, h1, h2, h3]

lemma lookup_tag_seat (e : CalendarEvent) :
    lookupProp (to_google_calendar_format e).privateProps "seat_number" =
      (if truthy e.seat_number then some (e.seat_number.getD "") else none) := by
  by_cases h1 : truthy e.confirmation_code <;>
    by_cases h2 : truthy e.booking_reference <;>
    by_cases h3 : truthy e.seat_number <;>
    simp [to_google_calendar_format, lookupProp, h1, h2, h3]

/-- The pairwise update loop equals a `zip`/`filterMap` over the aligned
prefix, starting at index `i`. -/
lemma flightUpdateActions_eq (existing : List StoreEvent) :
    ∀ (desired : List CalendarEvent) (i : Nat),
      flightUpdateActions existing desired i =
        ((existing.drop i).zip desired).filterMap fun p =>
          if needs_update p.1 p.2 then some (CalAction.update p.1.id p.2) else none := by
  intro desired
  induction desired with
  | nil => intro i; simp [flightUpdateActions]
  | cons n rest ih =>
    intro i
    cases hdrop : existing.drop i with
    | nil =>
      have hlen : existing.length ≤ i := List.drop_eq_nil_iff.mp hdrop
      have hnone : existing[i]? = none := by
        rw [List.getElem?_eq_none_iff]
        omega
      have hdrop1 : existing.drop (i + 1) = [] := by
        rw [List.drop_eq_nil_iff]
        omega
      simp [flightUpdateActions, hnone, ih, hdrop1]
    | cons e t =>
      have hsome : existing[i]? = some e := by
        have h0 := List.getElem?_drop existing i 0
        rw [hdrop] at h0
        simpa using h0.symm
      have hdrop1 : existing.drop (i + 1) = t := by
        rw [← List.tail_drop, hdrop]
        rfl
      by_cases hup : needs_update e n
      · simp [flightUpdateActions, hsome, hup, ih, hdrop1, hdrop]
      · simp [flightUpdateActions, hsome, hup, ih, hdrop1, hdrop]

/-- The `find_overlapping_events` filter loop computes a `List.filter` when
the own-sourced events' times all parse. -/
lemma overlapLoop_eq_filter (b : CarShareBooking) :
    ∀ (evs : List StoreEvent),
      (∀ e ∈ evs,
        (lookupProp e.privateProps "source" == some "gmail-calendar-sync") = true →
          (fromisoformat e.startDateTime).isSome ∧ (fromisoformat e.endDateTime).isSome) →
      overlapLoop b evs = some (evs.filter (overlapKeep b)) := by
  intro evs
  induction evs with
  | nil => intro _; rfl
  | cons e rest ih =>
    intro hwf
    have hrest : ∀ x ∈ rest,
        (lookupProp x.privateProps "source" == some "gmail-calendar-sync") = true →
          (fromisoformat x.startDateTime).isSome ∧ (fromisoformat x.endDateTime).isSome := by
      intro x hx
      exact hwf x (List.mem_cons_of_mem _ hx)
    by_cases hsrc : (lookupProp e.privateProps "source" == some "gmail-calendar-sync") = true
    · obtain ⟨hs, he⟩ := hwf e (List.mem_cons_self _ _) hsrc
      obtain ⟨es, hes⟩ := Option.isSome_iff_exists.mp hs
      obtain ⟨ee, hee⟩ := Option.isSome_iff_exists.mp he
      by_cases hov : b.start_time < ee ∧ es < b.end_time
      · by_cases hmatch : (strContains e.location b.station.station_name
            || strContains e.summary "Times Car"
            || strContains e.summary "三井のカーシェアーズ") = true
        · have hkeep : overlapKeep b e = true := by
            simp [overlapKeep, hsrc, hes, hee, hov.1, hov.2, hmatch]
          simp [overlapLoop, hsrc, hes, hee, hov, hmatch, ih hrest,
            List.filter_cons, hkeep]
        · have hkeep : overlapKeep b e = false := by
            simp only [Bool.or_eq_true, not_or, Bool.not_eq_true] at hmatch
            simp [overlapKeep, hsrc, hes, hee, hmatch]
          simp [overlapLoop, hsrc, hes, hee, hov, hmatch, ih hrest,
            List.filter_cons, hkeep]
      · have hkeep : overlapKeep b e = false := by
          rw [Classical.not_and_iff_or_not_not] at hov
          rcases hov with h | h
          · simp [overlapKeep, hes, hee, h]
          · simp [overlapKeep, hes, hee, h]
        simp [overlapLoop, hsrc, hes, hee, hov, ih hrest, List.filter_cons, hkeep]
    · have hkeep : overlapKeep b e = false := by
        simp only [Bool.not_eq_true] at hsrc
        simp [overlapKeep, hsrc]
      simp [overlapLoop, hsrc, ih hrest, List.filter_cons, hkeep]

/-! ### Claim theorems -/

/-- C7: the pipeline driver is claimed to exit 0 on any outcome including
partial per-message failures, exiting 1 only on a hard processing-phase
exception.  The code disagrees: `main()` calls `sys.exit(1)` whenever any
result fails outside the three skip buckets.  This theorem evaluates the
embedded exit-code logic at such a failing input (first conjunct: a partial
per-message failure exits 1, against the claim and the repository's own
tests; second conjunct: a hard exception exits 1, as claimed). -/
theorem main_exit_partial_failure_eval :
    mainExitCode (Except.ok [failedResult]) = 1 ∧
    mainExitCode (Except.error () : Except Unit (List (ProcessingResult Unit))) = 1 :=
  ⟨by decide, rfl⟩

/-- C2 counterexample: `needs_update` as the claim states it (seat change
counted only **from a placeholder/blank**) is false on the code — an existing
concrete seat `1A` changing to a different concrete seat `2B`, with identical
times and description lengths, makes `needs_update` true while the claim's
disjunction is false. -/
theorem needs_update_claim_counterexample :
    needs_update storedSeat1A newSeat2B = true ∧
    needs_update_claim_rhs storedSeat1A newSeat2B = false := by
  decide

/-- C2 (amended): `needs_update` is true iff the incoming seat tag is
non-blank, not the placeholder `未指定`, and differs from the existing seat
tag (regardless of what the existing tag was), or the start/end timestamps
differ under exact ISO-string comparison, or the new description is strictly
longer.  The concrete scenario of the claim holds: with seat `未指定` stored
and seat `14A` incoming at the same index, `needs_update` is true and the
reconciliation issues exactly one update call and no create. -/
theorem needs_update_amended_spec :
    (∀ (e : StoreEvent) (n : CalendarEvent),
      needs_update e n = true ↔
        (((lookupProp e.privateProps "seat_number").getD "" ≠
            (lookupProp (to_google_calendar_format n).privateProps "seat_number").getD "" ∧
          (lookupProp (to_google_calendar_format n).privateProps "seat_number").getD "" ≠ "" ∧
          (lookupProp (to_google_calendar_format n).privateProps "seat_number").getD "" ≠ "未指定")
        ∨ e.startDateTime ≠ isoformat n.start_time
        ∨ e.endDateTime ≠ isoformat n.end_time
        ∨ e.description.length < (n.description.getD "").length)) ∧
    needs_update storedW (flightSegmentEvent bookW "mail1" segW) = true ∧
    flight_reconcile_actions [storedW] (create_flight_events bookW "mail1")
      = [CalAction.update "ev1" (flightSegmentEvent bookW "mail1" segW)] := by
  refine ⟨?_, by decide, by decide⟩
  intro e n
  unfold needs_update
  dsimp only
  split_ifs with h1 h2 h3 h4
  · simp [h1]
  · simp [h2]
  · simp [h3]
  · simp [h4]
  · refine iff_of_false (by simp) ?_
    rintro (hd | hd | hd | hd)
    · exact h1 hd
    · exact h2 hd
    · exact h3 hd
    · exact h4 hd

/-- C8: the private tag bag built by `to_google_calendar_format` always
contains the event-source marker and the source email id, and contains the
confirmation code under the key `confirmation_code` exactly when the event
has one (a non-empty code, matching the source's truthiness guard); an event
built with such a code round-trips through the store and is selected by the
`find_events_by_confirmation_code` identity query on that same key. -/
theorem to_google_calendar_format_tags_spec (e : CalendarEvent) :
    lookupProp (to_google_calendar_format e).privateProps "source_email_id" =
      some e.source_email_id ∧
    lookupProp (to_google_calendar_format e).privateProps "source" =
      some "gmail-calendar-sync" ∧
    (∀ c : String,
      lookupProp (to_google_calendar_format e).privateProps "confirmation_code" = some c ↔
        (e.confirmation_code = some c ∧ c ≠ "")) ∧
    (∀ c : String, e.confirmation_code = some c → c ≠ "" →
      ∀ eventId,
        matches_confirmation_query (storeRoundTrip (to_google_calendar_format e) eventId) c
          = true) := by
  refine ⟨lookup_tag_source_email e, lookup_tag_source e, ?_, ?_⟩
  · intro c
    rw [lookup_tag_confirmation]
    cases hc : e.confirmation_code with
    | none => simp [truthy]
    | some s =>
      by_cases hs : s = ""
      · subst hs
        refine iff_of_false ?_ ?_
        · simp [truthy]
        · rintro ⟨hcc, hne⟩
          exact hne (by simpa using hcc.symm)
      · rw [if_pos (by simp [truthy, hs])]
        simp only [Option.getD_some, Option.some.injEq]
        constructor
        · rintro rfl
          exact ⟨rfl, hs⟩
        · rintro ⟨h1, _⟩
          exact h1
  · intro c hc hne eventId
    have hlk : lookupProp (to_google_calendar_format e).privateProps "confirmation_code"
        = some c := by
      rw [lookup_tag_confirmation]
      simp [truthy, hc, hne]
    simp [matches_confirmation_query, storeRoundTrip, hlk]

/-- C8 witness: the event built with confirmation code `ABC123` embeds it
under the query key and the identity query on `ABC123` selects it. -/
theorem to_google_calendar_format_tags_witness :
    eventABC.confirmation_code = some "ABC123" ∧ ("ABC123" : String) ≠ "" ∧
    matches_confirmation_query
      (storeRoundTrip (to_google_calendar_format eventABC) "gid") "ABC123" = true :=
  ⟨rfl, by decide,
    (to_google_calendar_format_tags_spec eventABC).2.2.2 "ABC123" rfl (by decide) "gid"⟩

/-- C9: a sender without `"@"` has the empty derived domain; a sender with
`"@"` has the lower-cased text after the last `"@"`, with everything from
the first `">"` onward removed, stripped of surrounding whitespace. -/
theorem email_domain_spec (sender : String) :
    (sender.data.contains '@' = false → sender_domain sender = "") ∧
    (sender.data.contains '@' = true → sender_domain sender = sender_domain_spec sender) := by
  constructor
  · intro h
    unfold sender_domain
    rw [if_neg (by simpa using h)]
  · intro h
    unfold sender_domain sender_domain_spec
    rw [if_pos h]
    dsimp only
    by_cases hg : (((sender.data.reverse.takeWhile fun c => c ≠ '@').reverse).map
        Char.toLower).contains '>' = true
    · rw [if_pos hg]
    · have hg' : (((sender.data.reverse.takeWhile fun c => c ≠ '@').reverse).map
          Char.toLower).contains '>' = false := by
        simpa using hg
      rw [if_neg (by simpa using hg), takeWhile_of_not_contains _ '>' hg']

/-- C9 witness: the two cases at concrete senders. -/
theorem email_domain_witness :
    ("Foo Bar <USER@Example.COM>".data.contains '@' = true ∧
      sender_domain "Foo Bar <USER@Example.COM>" =
        sender_domain_spec "Foo Bar <USER@Example.COM>") ∧
    ("nobody".data.contains '@' = false ∧ sender_domain "nobody" = "") :=
  ⟨⟨by decide, (email_domain_spec "Foo Bar <USER@Example.COM>").2 (by decide)⟩,
   ⟨by decide, (email_domain_spec "nobody").1 (by decide)⟩⟩

/-- C1: when the identity query (keyed on the confirmation code, falling back
to the booking reference when the code is absent) returns a non-empty
existing-event list, flight reconciliation pairs `desired[i]` with
`existing[i]` over the aligned prefix, issues an update exactly where
`needs_update` holds, creates the desired events beyond the existing count,
and never issues a delete. -/
theorem flight_reconcile_existing_spec (b : FlightBooking) (emailId : String)
    (existing : List StoreEvent) (h : existing ≠ []) :
    flight_reconcile_actions existing (create_flight_events b emailId)
      = (((existing.zip (create_flight_events b emailId)).filterMap fun p =>
            if needs_update p.1 p.2 then some (CalAction.update p.1.id p.2) else none)
          ++ ((create_flight_events b emailId).drop existing.length).map CalAction.create) ∧
    (∀ eid, CalAction.delete eid ∉
        flight_reconcile_actions existing (create_flight_events b emailId)) ∧
    (∀ c, flightIdentityQuery b = FlightQueryKey.byCode c ↔
        (b.confirmation_code = some c ∧ c ≠ "")) ∧
    (∀ r, flightIdentityQuery b = FlightQueryKey.byRef r ↔
        (truthy b.confirmation_code = false ∧ b.booking_reference = some r ∧ r ≠ "")) := by
  have heq : flight_reconcile_actions existing (create_flight_events b emailId)
      = (((existing.zip (create_flight_events b emailId)).filterMap fun p =>
            if needs_update p.1 p.2 then some (CalAction.update p.1.id p.2) else none)
          ++ ((create_flight_events b emailId).drop existing.length).map CalAction.create) := by
    unfold flight_reconcile_actions
    rw [if_neg (by simpa using h), flightUpdateActions_eq existing _ 0]
    simp only [List.drop_zero]
    by_cases hlen : existing.length < (create_flight_events b emailId).length
    · rw [if_pos hlen]
    · rw [if_neg hlen]
      have hd : (create_flight_events b emailId).drop existing.length = [] := by
        rw [List.drop_eq_nil_iff]
        omega
      rw [hd]
      simp
  refine ⟨heq, ?_, ?_, ?_⟩
  · intro eid hmem
    rw [heq] at hmem
    rcases List.mem_append.mp hmem with hm | hm
    · obtain ⟨p, _, hp⟩ := List.mem_filterMap.mp hm
      by_cases hu : needs_update p.1 p.2 <;> simp [hu] at hp
    · obtain ⟨ev, _, hp⟩ := List.mem_map.mp hm
      exact CalAction.noConfusion hp
  · intro c
    unfold flightIdentityQuery
    cases hcc : b.confirmation_code with
    | none =>
      refine iff_of_false ?_ (by simp)
      rw [if_neg (by simp [truthy])]
      split <;> simp
    | some s =>
      by_cases hs : s = ""
      · subst hs
        refine iff_of_false ?_ ?_
        · rw [if_neg (by simp [truthy])]
          split <;> simp
        · rintro ⟨hcc2, hne⟩
          exact hne (by simpa using hcc2.symm)
      · rw [if_pos (by simp [truthy, hs])]
        simp only [Option.getD_some, FlightQueryKey.byCode.injEq, Option.some.injEq]
        constructor
        · rintro rfl
          exact ⟨rfl, hs⟩
        · rintro ⟨h1, _⟩
          exact h1
  · intro r
    unfold flightIdentityQuery
    by_cases hct : truthy b.confirmation_code = true
    · rw [if_pos hct]
      refine iff_of_false (by simp) ?_
      rintro ⟨hfalse, _⟩
      simp [hct] at hfalse
    · have hct' : truthy b.confirmation_code = false := by simpa using hct
      rw [if_neg hct]
      cases hbr : b.booking_reference with
      | none =>
        rw [if_neg (by simp [truthy])]
        exact iff_of_false (by simp) (by simp)
      | some s =>
        by_cases hs : s = ""
        · subst hs
          rw [if_neg (by simp [truthy])]
          refine iff_of_false (by simp) ?_
          rintro ⟨_, hrr, hne⟩
          exact hne (by simpa using hrr.symm)
        · rw [if_pos (by simp [truthy, hs])]
          simp only [Option.getD_some, FlightQueryKey.byRef.injEq]
          constructor
          · rintro rfl
            exact ⟨hct', rfl, hs⟩
          · rintro ⟨_, h1, _⟩
            simpa using h1

/-- C1 witness: a concrete non-empty existing list, on which reconciliation
issues no delete. -/
theorem flight_reconcile_existing_witness :
    ([storedW] : List StoreEvent) ≠ [] ∧
    (∀ eid, CalAction.delete eid ∉
        flight_reconcile_actions [storedW] (create_flight_events bookW "mail1")) :=
  ⟨by simp, (flight_reconcile_existing_spec bookW "mail1" [storedW] (by simp)).2.1⟩

/-- C5: the promotional classifier first applies confirmation precedence
(subject matching any booking-confirmation pattern, or the body matching at
least two, forces "not promotional"); otherwise it is promotional exactly
when the subject matches at least 2 promotional patterns, or the subject
matches at least 1 and the body at least 2, or the body matches at least 3. -/
theorem is_promotional_email_spec (subject body : String) :
    is_promotional_email subject body = true ↔
      (¬ ((booking_confirmation_patterns.any fun p => p.matches subject) = true
            ∨ 2 ≤ countMatches booking_confirmation_patterns body)
        ∧ (2 ≤ countMatches promotional_subject_patterns subject
            ∨ (1 ≤ countMatches promotional_subject_patterns subject
                ∧ 2 ≤ countMatches promotional_body_patterns body)
            ∨ 3 ≤ countMatches promotional_body_patterns body)) := by
  have hconf : is_booking_confirmation subject body = true ↔
      ((booking_confirmation_patterns.any fun p => p.matches subject) = true
        ∨ 2 ≤ countMatches booking_confirmation_patterns body) := by
    simp [is_booking_confirmation]
  unfold is_promotional_email
  by_cases hb : is_booking_confirmation subject body = true
  · rw [if_pos hb]
    refine iff_of_false (by simp) ?_
    rintro ⟨hn, _⟩
    exact hn (hconf.mp hb)
  · rw [if_neg hb]
    dsimp only
    have hb' : ¬ ((booking_confirmation_patterns.any fun p => p.matches subject) = true
        ∨ 2 ≤ countMatches booking_confirmation_patterns body) :=
      fun hd => hb (hconf.mpr hd)
    split_ifs with h1 h2 h3
    · exact iff_of_true rfl ⟨hb', Or.inl h1⟩
    · exact iff_of_true rfl ⟨hb', Or.inr (Or.inl h2)⟩
    · exact iff_of_true rfl ⟨hb', Or.inr (Or.inr h3)⟩
    · refine iff_of_false (by simp) ?_
      rintro ⟨_, (hd | hd | hd)⟩
      · exact h1 hd
      · exact h2 hd
      · exact h3 hd

/-- C6: when flight extraction succeeds but `create_calendar_events` returns
an empty list — which, given the booking's mandatory outbound segment, can
only happen on its exception path — `process` returns a failure with message
`Failed to create calendar events` and the extracted data still attached. -/
theorem flight_process_reconcile_failure_spec (emailId : String) (b : FlightBooking)
    (existing : List StoreEvent) (exn : Bool) (hexp : b.outbound_segments ≠ []) :
    ((flight_create_calendar_events b emailId existing exn).1 = [] ↔ exn = true) ∧
    ((flight_create_calendar_events b emailId existing exn).1 = [] →
      flight_process emailId true false (some b) existing exn =
        { email_id := emailId
          email_type := EmailType.flight
          success := false
          extracted_data := some b
          error_message := some "Failed to create calendar events" }) := by
  constructor
  · cases exn with
    | true => simp [flight_create_calendar_events]
    | false =>
      have hval : (flight_create_calendar_events b emailId existing false).1
          = create_flight_events b emailId := rfl
      rw [hval]
      refine iff_of_false ?_ (by simp)
      intro hnil
      unfold create_flight_events at hnil
      have h1 := (List.append_eq_nil.mp hnil).1
      rw [List.map_eq_nil_iff] at h1
      exact hexp h1
  · intro hnil
    simp [flight_process, hnil]

/-- C6 witness: a concrete booking with one outbound segment and an
exception during reconciliation. -/
theorem flight_process_reconcile_failure_witness :
    bookW.outbound_segments ≠ [] ∧
    flight_process "m" true false (some bookW) [] true =
      { email_id := "m"
        email_type := EmailType.flight
        success := false
        extracted_data := some bookW
        error_message := some "Failed to create calendar events" } :=
  ⟨by simp [bookW], (flight_process_reconcile_failure_spec "m" bookW [] true
      (by simp [bookW])).2 (by decide)⟩

/-- C3: for a non-cancelled car-share booking the reconciliation builds
exactly one desired event; an event from the store query counts as
overlapping iff it is own-sourced, strictly overlaps the booking interval
(`booking.start < event.end` and `event.start < booking.end`, touching
endpoints excluded), and matches on the station name appearing in its
location or a provider display name appearing in its title; and the calls
issued are exactly: delete every overlapping event, then create the one new
event (just the create when nothing overlaps). -/
theorem carshare_reconcile_active_spec (emailId : String) (b : CarShareBooking)
    (evs : List StoreEvent) (hst : b.status ≠ BookingStatus.cancelled)
    (hwf : ∀ e ∈ evs,
      (lookupProp e.privateProps "source" == some "gmail-calendar-sync") = true →
        (fromisoformat e.startDateTime).isSome ∧ (fromisoformat e.endDateTime).isSome) :
    (create_carshare_events b emailId).length = 1 ∧
    (∀ e, e ∈ find_overlapping_events b (Except.ok evs) ↔
      (e ∈ evs ∧
        lookupProp e.privateProps "source" = some "gmail-calendar-sync" ∧
        b.start_time < (fromisoformat e.endDateTime).getD 0 ∧
        (fromisoformat e.startDateTime).getD 0 < b.end_time ∧
        (strContains e.location b.station.station_name = true ∨
          strContains e.summary "Times Car" = true ∨
          strContains e.summary "三井のカーシェアーズ" = true))) ∧
    (carshare_create_calendar_events b emailId (Except.ok evs)).2 =
      ((find_overlapping_events b (Except.ok evs)).map fun e => CalAction.delete e.id)
        ++ (create_carshare_events b emailId).map CalAction.create := by
  have hfo : find_overlapping_events b (Except.ok evs) = evs.filter (overlapKeep b) := by
    show (overlapLoop b evs).getD [] = evs.filter (overlapKeep b)
    rw [overlapLoop_eq_filter b evs hwf]
    rfl
  refine ⟨rfl, ?_, ?_⟩
  · intro e
    rw [hfo, List.mem_filter]
    unfold overlapKeep
    simp only [Bool.and_eq_true, Bool.or_eq_true, beq_iff_eq, decide_eq_true_eq]
    tauto
  · unfold carshare_create_calendar_events
    rw [if_neg hst]
    by_cases hov : (find_overlapping_events b (Except.ok evs)).isEmpty = false
    · rw [if_pos hov]
    · rw [if_neg hov]
      have hempty : find_overlapping_events b (Except.ok evs) = [] := by
        rw [← List.isEmpty_iff]
        simpa using hov
      rw [hempty]
      simp

/-- C3 witness: a Changed booking against one concrete overlapping event. -/
theorem carshare_reconcile_active_witness :
    csChanged.status ≠ BookingStatus.cancelled ∧
    (create_carshare_events csChanged "m2").length = 1 ∧
    (carshare_create_calendar_events csChanged "m2" (Except.ok [ovStation])).2 =
      ((find_overlapping_events csChanged (Except.ok [ovStation])).map
          fun e => CalAction.delete e.id)
        ++ (create_carshare_events csChanged "m2").map CalAction.create := by
  have hwf : ∀ e ∈ [ovStation],
      (lookupProp e.privateProps "source" == some "gmail-calendar-sync") = true →
        (fromisoformat e.startDateTime).isSome ∧ (fromisoformat e.endDateTime).isSome := by
    decide
  exact ⟨by decide,
    (carshare_reconcile_active_spec "m2" csChanged [ovStation] (by decide) hwf).1,
    (carshare_reconcile_active_spec "m2" csChanged [ovStation] (by decide) hwf).2.2⟩

/-- C4: a Cancelled car-share booking deletes exactly the matching
overlapping events, creates nothing, and the processing result is a success
carrying the extracted data; zero matches means zero deletes and still
success. -/
theorem carshare_cancelled_spec (emailId : String) (b : CarShareBooking)
    (query : Except Unit (List StoreEvent)) (hc : b.status = BookingStatus.cancelled) :
    (carshare_process emailId true false (some b) query).1.success = true ∧
    (carshare_process emailId true false (some b) query).1.extracted_data = some b ∧
    (carshare_create_calendar_events b emailId query).1 = [] ∧
    (carshare_process emailId true false (some b) query).2 =
      ((find_overlapping_events b query).map fun e => CalAction.delete e.id) ∧
    (find_overlapping_events b query = [] →
      (carshare_process emailId true false (some b) query).2 = []) ∧
    (∀ ev, CalAction.create ev ∉ (carshare_process emailId true false (some b) query).2) := by
  have hacts : (carshare_process emailId true false (some b) query).2
      = (find_overlapping_events b query).map fun e => CalAction.delete e.id := by
    simp [carshare_process, carshare_create_calendar_events, hc]
  have hres : (carshare_process emailId true false (some b) query).1
      = { email_id := emailId
          email_type := EmailType.car_share
          success := true
          extracted_data := some b
          error_message := none } := by
    simp [carshare_process, carshare_create_calendar_events, hc]
  refine ⟨by rw [hres], by rw [hres], ?_, hacts, ?_, ?_⟩
  · simp [carshare_create_calendar_events, hc]
  · intro h0
    rw [hacts, h0]
    rfl
  · intro ev hmem
    rw [hacts] at hmem
    obtain ⟨e, _, hp⟩ := List.mem_map.mp hmem
    exact CalAction.noConfusion hp

/-- C4 witness: the concrete cancelled booking against two overlapping
events yields success and exactly their two deletes. -/
theorem carshare_cancelled_witness :
    csCancelled.status = BookingStatus.cancelled ∧
    (carshare_process "m2" true false (some csCancelled)
        (Except.ok [ovStation, ovProvider])).1.success = true ∧
    (carshare_process "m2" true false (some csCancelled)
        (Except.ok [ovStation, ovProvider])).2 =
      ((find_overlapping_events csCancelled (Except.ok [ovStation, ovProvider])).map
        fun e => CalAction.delete e.id) :=
  ⟨rfl,
    (carshare_cancelled_spec "m2" csCancelled (Except.ok [ovStation, ovProvider]) rfl).1,
    (carshare_cancelled_spec "m2" csCancelled
      (Except.ok [ovStation, ovProvider]) rfl).2.2.2.1⟩

/-- C10: when the overlap query raises, `find_overlapping_events` returns
`[]` instead of propagating; a Cancelled booking is then still a success
with zero deletions, and a non-cancelled booking's event is created with no
prior event deleted. -/
theorem carshare_query_error_spec (emailId : String) (b : CarShareBooking) :
    find_overlapping_events b (Except.error ()) = [] ∧
    (b.status = BookingStatus.cancelled →
      (carshare_process emailId true false (some b) (Except.error ())).1.success = true ∧
      (carshare_process emailId true false (some b) (Except.error ())).2 = []) ∧
    (b.status ≠ BookingStatus.cancelled →
      (carshare_process emailId true false (some b) (Except.error ())).2 =
        (create_carshare_events b emailId).map CalAction.create ∧
      (∀ eid, CalAction.delete eid ∉
        (carshare_process emailId true false (some b) (Except.error ())).2)) := by
  refine ⟨rfl, ?_, ?_⟩
  · intro hc
    constructor
    · simp [carshare_process, carshare_create_calendar_events, hc, find_overlapping_events]
    · simp [carshare_process, carshare_create_calendar_events, hc, find_overlapping_events]
  · intro hst
    have hacts : (carshare_process emailId true false (some b) (Except.error ())).2
        = (create_carshare_events b emailId).map CalAction.create := by
      simp [carshare_process, carshare_create_calendar_events, create_carshare_events,
        hst, find_overlapping_events]
    refine ⟨hacts, ?_⟩
    intro eid hmem
    rw [hacts] at hmem
    obtain ⟨e, _, hp⟩ := List.mem_map.mp hmem
    exact CalAction.noConfusion hp

/-- C10 witness: the cancelled booking with a failing query is a success
with no calls issued. -/
theorem carshare_query_error_witness :
    csCancelled.status = BookingStatus.cancelled ∧
    (carshare_process "m" true false (some csCancelled) (Except.error ())).1.success = true ∧
    (carshare_process "m" true false (some csCancelled) (Except.error ())).2 = [] :=
  ⟨rfl, ((carshare_query_error_spec "m" csCancelled).2.1 rfl).1,
    ((carshare_query_error_spec "m" csCancelled).2.1 rfl).2⟩

end GCS
